import Mathlib

/-!
Verification of the housing-prices scraping and normalization pipeline.

Shallow embedding of `src/carousell_scraper.py` (page materializer
`extract_html`, listing collector `extract_listings` with its inner field
extractor `extract_from_card`) and `src/parser.py` (`batch_parse`).

HTML markup is modelled as a tree of element and text nodes; the
BeautifulSoup operations used by the code (`find`, `find_all`, `.text`,
attribute access, `find_previous_sibling`) are modelled as document-order
traversals of that tree.  Python string operations (`in`, `startswith`,
`isdigit`, `strip`, `split(sep, 1)`) are modelled on Lean strings.
-/

namespace Carousell

/-! ## Python string primitives -/

/-- Python `needle in hay` substring test. -/
def strContains (hay needle : String) : Bool :=
  (List.range (hay.toList.length + 1)).any fun i =>
    needle.toList.isPrefixOf (hay.toList.drop i)

/-- Python `s.startswith(pre)`. -/
def strStarts (s pre : String) : Bool :=
  pre.toList.isPrefixOf s.toList

/-- Python `s.isdigit()`: non-empty and every character a digit. -/
def isDigits (s : String) : Bool :=
  !(s.toList.isEmpty) && s.toList.all Char.isDigit

/-- Python `s.strip()`: drop whitespace from both ends. -/
def pyStrip (s : String) : String :=
  String.mk (((s.toList.dropWhile Char.isWhitespace).reverse.dropWhile Char.isWhitespace).reverse)

/-- Split a character list on spaces, dropping empty chunks (the non-empty
pieces of `split(" ")`). -/
def wordsAux : List Char → List Char → List String
  | [], acc => if acc.isEmpty then [] else [String.mk acc.reverse]
  | c :: rest, acc =>
    if c == ' ' then
      (if acc.isEmpty then [] else [String.mk acc.reverse]) ++ wordsAux rest []
    else wordsAux rest (c :: acc)

/-- A prefix occurrence is in particular a substring occurrence. -/
theorem strContains_of_strStarts (s pre : String) (h : strStarts s pre = true) :
    strContains s pre = true := by
  unfold strContains
  rw [List.any_eq_true]
  exact ⟨0, by simp, by simpa [strStarts] using h⟩

/-- Substring occurrences of a string are made of its characters. -/
theorem mem_of_strContains (hay needle : String) (c : Char)
    (hc : c ∈ needle.toList) (h : strContains hay needle = true) :
    c ∈ hay.toList := by
  unfold strContains at h
  rw [List.any_eq_true] at h
  obtain ⟨i, _, hpre⟩ := h
  rw [List.isPrefixOf_iff_prefix] at hpre
  exact List.mem_of_mem_drop (hpre.subset hc)

/-- A digits-only string never contains the unit marker `"sqm"`. -/
theorem isDigits_not_contains_sqm (s : String) (h : isDigits s = true) :
    strContains s "sqm" = false := by
  unfold isDigits at h
  rw [Bool.and_eq_true, List.all_eq_true] at h
  by_contra hne
  rw [Bool.not_eq_false] at hne
  have hs : ('s' : Char) ∈ ("sqm" : String).toList := by decide
  have := h.2 's' (mem_of_strContains s "sqm" 's' hs hne)
  simp [Char.isDigit] at this

/-! ## Markup tree (the BeautifulSoup document model) -/

/-- One node of parsed markup: an element with a tag name, attributes and
children, or a bare text node. -/
inductive Node where
  | elem (name : String) (attrs : List (String × String)) (children : List Node)
  | text (s : String)

/-- `True` when the node is an element with the given tag name. -/
def isElemName (n : Node) (nm : String) : Bool :=
  match n with
  | .elem nm' _ _ => nm' == nm
  | .text _ => false

/-- BeautifulSoup `tag.get(k)`: the attribute's value, when present. -/
def attrOf (n : Node) (k : String) : Option String :=
  match n with
  | .elem _ attrs _ => (attrs.find? fun kv => kv.1 == k).map (·.2)
  | .text _ => none

/-- BeautifulSoup `tag.get(k, d)`. -/
def attrD (n : Node) (k d : String) : String :=
  (attrOf n k).getD d

/-- BeautifulSoup multi-valued `class` attribute: the whitespace-separated
class tokens, each matched individually by `class_=lambda` filters. -/
def classTokens (n : Node) : List String :=
  wordsAux (attrD n "class" "").toList []

/-- `class_=lambda x: x and frag in x`: some class token contains `frag`. -/
def hasClassSub (n : Node) (frag : String) : Bool :=
  (classTokens n).any fun t => strContains t frag

mutual

/-- All proper descendants of a node in document (pre-)order, each paired
with the list of its preceding siblings (the context needed to model
BeautifulSoup's `find_previous_sibling`). -/
def descendantsCtx : Node → List (Node × List Node)
  | .text _ => []
  | .elem _ _ cs => descendantsCtxList cs []
termination_by structural n => n

/-- Descendant contexts of a sibling list, `pre` being the elder siblings
already passed. -/
def descendantsCtxList : List Node → List Node → List (Node × List Node)
  | [], _ => []
  | c :: rest, pre => (c, pre) :: (descendantsCtx c ++ descendantsCtxList rest (pre ++ [c]))
termination_by structural cs _ => cs

end

/-- All proper descendants of a node in document order. -/
def descendants (n : Node) : List Node :=
  (descendantsCtx n).map (·.1)

/-- BeautifulSoup `tag.find_all(pred)`: matching descendants in order. -/
def findAll (p : Node → Bool) (n : Node) : List Node :=
  (descendants n).filter p

/-- BeautifulSoup `tag.find(pred)`: the first matching descendant. -/
def find (p : Node → Bool) (n : Node) : Option Node :=
  (findAll p n).head?

/-- BeautifulSoup `tag.text` / `get_text()`: all descendant text,
concatenated in document order. -/
def nodeText (n : Node) : String :=
  String.join ((descendants n).filterMap fun m =>
    match m with
    | .text s => some s
    | .elem _ _ _ => none)

/-- `span.find_previous_sibling("img")`: nearest elder sibling that is an
`img` element, given the elder-sibling list in document order. -/
def prevSiblingImg (pre : List Node) : Option Node :=
  pre.reverse.find? fun m => isElemName m "img"

/-! ## Field Extractor (`extract_from_card` in `carousell_scraper.py`) -/

/-- One scraped listing, mirroring the dict literal returned by
`extract_from_card` (lines 229-243). -/
structure ListingRecord where
  title : String
  price : String
  bedrooms : String
  bathrooms : String
  size : String
  location : String
  remarks : String
  image_url : String
  listing_url : String
  seller_profile : String
  seller_name : String
  likes : String
  days_ago : String
deriving DecidableEq

/-- The bed/bath/size/remarks variables threaded through the feature loop. -/
structure FeatState where
  bedrooms : String := ""
  bathrooms : String := ""
  size : String := ""
  remarks : String := ""
deriving DecidableEq

/-- Filter for `listing.find("p", {"title": True})`. -/
def titleAttrP (n : Node) : Bool :=
  isElemName n "p" && (attrOf n "title").isSome

/-- Filter for `listing.find_all("p")`. -/
def isPTag (n : Node) : Bool :=
  isElemName n "p"

/-- The fallback-title loop condition `p.text and len(p.text.strip()) > 0`. -/
def nonBlankText (p : Node) : Bool :=
  !(pyStrip (nodeText p) == "")

/-- Title extraction (lines 152-162): the explicit `title` attribute on a
`<p>` when present, otherwise the first `<p>` with non-blank text. -/
def extractTitle (listing : Node) : String :=
  match find titleAttrP listing with
  | some t => attrD t "title" ""
  | none =>
    match (findAll isPTag listing).find? nonBlankText with
    | some p => pyStrip (nodeText p)
    | none => ""

/-- Filter for `lambda tag: tag.name == "span" and tag.get("title", "").startswith("PHP")`. -/
def priceAttrSpan (n : Node) : Bool :=
  isElemName n "span" && strStarts (attrD n "title" "") "PHP"

/-- Filter for `listing.find_all("span")`. -/
def isSpanTag (n : Node) : Bool :=
  isElemName n "span"

/-- The fallback-price loop condition `span.text.strip().startswith("PHP")`. -/
def priceTextStarts (s : Node) : Bool :=
  strStarts (pyStrip (nodeText s)) "PHP"

/-- Price extraction (lines 164-175): a `<span>` whose `title` attribute
starts with "PHP" when present, otherwise the first `<span>` whose stripped
text starts with "PHP", otherwise the empty string. -/
def extractPrice (listing : Node) : String :=
  match find priceAttrSpan listing with
  | some t => attrD t "title" ""
  | none =>
    match (findAll isSpanTag listing).find? priceTextStarts with
    | some s => pyStrip (nodeText s)
    | none => ""

/-- Filter for `listing.find("div", class_=lambda x: x and "D_qc" in x)`. -/
def isFeaturesDiv (n : Node) : Bool :=
  isElemName n "div" && hasClassSub n "D_qc"

/-- The titled `<span>`s of the features region paired with their nearest
preceding `<img>` sibling (lines 178-181 and 186-187). -/
def featureItems (listing : Node) : List (String × Option Node) :=
  match find isFeaturesDiv listing with
  | none => []
  | some fd =>
    ((descendantsCtx fd).filter fun nc =>
        isElemName nc.1 "span" && (attrOf nc.1 "title").isSome).map
      fun nc => (attrD nc.1 "title" "", prevSiblingImg nc.2)

/-- The body of the feature loop (lines 182-193): `sqm` values are size,
digit-only values go to bedrooms or bathrooms depending on the preceding
icon, anything else is remarks. -/
def classifyFeature (st : FeatState) (titleVal : String) (prevImg : Option Node) : FeatState :=
  if strContains titleVal "sqm" then { st with size := titleVal }
  else if isDigits titleVal then
    match prevImg with
    | some img =>
      if strContains (attrD img "src" "") "ic_bed.svg" then { st with bedrooms := titleVal }
      else if strContains (attrD img "src" "") "ic_bath.svg" then { st with bathrooms := titleVal }
      else st
    | none => st
  else { st with remarks := titleVal }

/-- The feature loop (lines 177-193) folded over the feature spans. -/
def extractFeatures (listing : Node) : FeatState :=
  (featureItems listing).foldl (fun st it => classifyFeature st it.1 it.2) {}

/-- Filter for `listing.find("img", {"alt": True, "src": True})`. -/
def imgWithAltSrc (n : Node) : Bool :=
  isElemName n "img" && (attrOf n "alt").isSome && (attrOf n "src").isSome

/-- Image extraction (lines 195-197): first `<img>` with both `alt` and
`src` attributes. -/
def extractImageUrl (listing : Node) : String :=
  match find imgWithAltSrc listing with
  | some img => attrD img "src" ""
  | none => ""

/-- Filter for `listing.find("a", href=True)`. -/
def aWithHref (n : Node) : Bool :=
  isElemName n "a" && (attrOf n "href").isSome

/-- Listing-URL extraction (lines 199-201): first `<a href>`, absolutized. -/
def extractListingUrl (listing : Node) : String :=
  match find aWithHref listing with
  | some atag => "https://www.carousell.ph" ++ attrD atag "href" ""
  | none => ""

/-- Filter for `listing.find("a", href=lambda x: x and "/u/" in x)`. -/
def aSellerLink (n : Node) : Bool :=
  isElemName n "a" &&
    (match attrOf n "href" with
     | some h => strContains h "/u/"
     | none => false)

/-- Seller-profile extraction (lines 203-207): first `<a>` whose `href`
contains "/u/", absolutized. -/
def extractSellerProfile (listing : Node) : String :=
  match find aSellerLink listing with
  | some atag => "https://www.carousell.ph" ++ attrD atag "href" ""
  | none => ""

/-- Filter for `listing.find("p", {"data-testid": "listing-card-text-seller-name"})`. -/
def sellerNameP (n : Node) : Bool :=
  isElemName n "p" && attrOf n "data-testid" == some "listing-card-text-seller-name"

/-- Seller-name extraction (lines 209-213). -/
def extractSellerName (listing : Node) : String :=
  match find sellerNameP listing with
  | some t => pyStrip (nodeText t)
  | none => ""

/-- Filter for `listing.find("button", {"data-testid": "listing-card-btn-like"})`. -/
def likeBtn (n : Node) : Bool :=
  isElemName n "button" && attrOf n "data-testid" == some "listing-card-btn-like"

/-- Likes extraction (lines 215-221): the `<span>` inside the like button,
defaulting to "0" when either lookup fails. -/
def extractLikes (listing : Node) : String :=
  match find likeBtn listing with
  | some bt =>
    match find isSpanTag bt with
    | some sp => pyStrip (nodeText sp)
    | none => "0"
  | none => "0"

/-- Filter for `listing.find("p", class_=lambda x: x and ("D_pw" in x or
"D_jG" in x or "D_qa" in x))`. -/
def daysAgoP (n : Node) : Bool :=
  isElemName n "p" && (hasClassSub n "D_pw" || hasClassSub n "D_jG" || hasClassSub n "D_qa")

/-- Days-ago extraction (lines 223-227): first `<p>` with a class token
containing one of the three style markers. -/
def extractDaysAgo (listing : Node) : String :=
  match find daysAgoP listing with
  | some t => pyStrip (nodeText t)
  | none => ""

/-- `extract_from_card(listing)` (lines 145-243): assemble the record.
`location` is initialized to the empty string on line 147 and no extraction
path assigns it. -/
def extract_from_card (listing : Node) : ListingRecord :=
  let fs := extractFeatures listing
  { title := extractTitle listing
    price := extractPrice listing
    bedrooms := fs.bedrooms
    bathrooms := fs.bathrooms
    size := fs.size
    location := ""
    remarks := fs.remarks
    image_url := extractImageUrl listing
    listing_url := extractListingUrl listing
    seller_profile := extractSellerProfile listing
    seller_name := extractSellerName listing
    likes := extractLikes listing
    days_ago := extractDaysAgo listing }

/-! ## Listing Collector (`extract_listings`) -/

/-- Filter for `soup.find_all("div", {"data-testid": lambda x: x and
x.startswith("listing-card-")})` (lines 249-251). -/
def isListingCard (n : Node) : Bool :=
  isElemName n "div" &&
    (match attrOf n "data-testid" with
     | some x => strStarts x "listing-card-"
     | none => false)

/-- Document-title provenance (lines 142-143). -/
def pageTitleOf (root : Node) : String :=
  match find (fun n => isElemName n "title") root with
  | some t => pyStrip (nodeText t)
  | none => ""

/-- `extract_listings(html)` (lines 139-259): collect one record per
listing card, in document order; raise `ValueError("No listings were
found")` when no card matches (lines 254-255). -/
def extract_listings (root : Node) : Except String (String × List ListingRecord) :=
  let pageTitle := pageTitleOf root
  let cards := findAll isListingCard root
  if cards.isEmpty then Except.error "No listings were found"
  else Except.ok (pageTitle, cards.map extract_from_card)

/-! ## Normalization Worker Pool (`batch_parse` in `parser.py`) -/

/-- Python `s.split("|", 1) if "|" in s else [s, ""]` (line 101): split on
the first pipe only; without a pipe the whole string is the first column. -/
def splitPipeOnce (s : String) : String × String :=
  if strContains s "|" then
    let pre := s.toList.takeWhile fun c => !(c == '|')
    (String.mk pre, String.mk (s.toList.drop (pre.length + 1)))
  else (s, "")

/-- A listing record enriched with the two columns `batch_parse` assigns
(line 100). -/
structure NormRecord extends ListingRecord where
  building : String
  trans_type : String
deriving DecidableEq

/-- `batch_parse(df, text_column, parse_description, max_workers)` (lines
92-103) with `text_column = "title"` as in `main.py`.  The backend call
`parse_with_ollama` is a pure oracle `backend : String → String`;
`ThreadPoolExecutor.map` yields results in input order, so the parsed
column is the positional map of the backend over the titles, merged back
by row index. -/
def batch_parse (backend : String → String) (df : List ListingRecord) : List NormRecord :=
  let parsed := df.map fun r => backend r.title
  (df.zip parsed).map fun rp =>
    let bt := splitPipeOnce rp.2
    { toListingRecord := rp.1, building := bt.1, trans_type := bt.2 }

/-! ## Page Materializer (`extract_html` in `carousell_scraper.py`)

The browser is modelled as an oracle environment: whether the location
filter option ever becomes clickable within its bounded wait, whether the
k-th "Show more results" wait succeeds, and the page source the driver
would report.  The observable behaviour of one `extract_html` call is a
trace of driver events plus a result; Python's `try/finally` is embedded
as trace concatenation, so the `finally` block's events appear on every
exit path. -/

/-- Driver events observable during one `extract_html` call. -/
inductive Ev where
  | navigate
  | setFilter
  | clickSearch
  | clickShowMore (k : Nat)
  | quit
deriving DecidableEq

/-- Errors that can escape `extract_html`: only the re-raised
`TimeoutException` of `_set_location_filter` (lines 75-77). -/
inductive ScrapeError where
  | filterUnavailable
deriving DecidableEq

/-- Browser-session oracle for one materialization call. -/
structure Env where
  filterOk : Bool
  searchReady : Bool
  showMore : Nat → Bool
  pageSource : String

/-- The `while` guard `max_clicks is None or click_count < max_clicks`
(line 38). -/
def loopCond (maxClicks : Option Nat) (k : Nat) : Bool :=
  match maxClicks with
  | none => true
  | some m => decide (k < m)

/-- The loop continues past its k-th iteration iff the guard holds and the
k-th `_click_show_more` succeeds (lines 38-41). -/
def loopStep (sm : Nat → Bool) (maxClicks : Option Nat) (k : Nat) : Bool :=
  loopCond maxClicks k && sm k

/-- The load loop exits: some iteration fails the guard or the click. -/
def loopExits (sm : Nat → Bool) (maxClicks : Option Nat) : Prop :=
  ∃ n, loopStep sm maxClicks n = false

/-- Number of successful "Show more results" clicks: the first iteration
at which the loop stops. -/
def clickCount (sm : Nat → Bool) (maxClicks : Option Nat) (h : loopExits sm maxClicks) : Nat :=
  Nat.find h

/-- Python `try/finally`: the `finally` events run after the body on every
exit path, and the body's outcome (value or exception) is preserved. -/
def tryFinallyT {E A : Type} (body : List Ev × Except E A) (fin : List Ev) :
    List Ev × Except E A :=
  (body.1 ++ fin, body.2)

/-- The `try` body of `extract_html` (lines 33-43): navigate, set the
location filter (re-raising its timeout), click search (its own timeout is
caught and swallowed, lines 101-103), run the load loop, return the page
source. -/
def extract_html_body (env : Env) (maxClicks : Option Nat)
    (h : loopExits env.showMore maxClicks) : List Ev × Except ScrapeError String :=
  if env.filterOk then
    ([Ev.navigate, Ev.setFilter, Ev.clickSearch] ++
       (List.range (clickCount env.showMore maxClicks h)).map Ev.clickShowMore,
     Except.ok env.pageSource)
  else
    ([Ev.navigate, Ev.setFilter], Except.error ScrapeError.filterUnavailable)

/-- `extract_html(search_result_page, city_string, max_clicks)` (lines
16-46): the body wrapped in `try/finally: driver.quit()`. -/
def extract_html (env : Env) (maxClicks : Option Nat)
    (h : loopExits env.showMore maxClicks) : List Ev × Except ScrapeError String :=
  tryFinallyT (extract_html_body env maxClicks h) [Ev.quit]

/-! ## Concrete inputs used to instantiate the theorems -/

/-- A listing card whose features region holds a single purely numeric
value with no preceding icon. -/
def numericCard : Node :=
  .elem "div" [("data-testid", "listing-card-2")]
    [ .elem "div" [("class", "D_qc")]
        [ .elem "span" [("title", "3")] [] ] ]

/-- A bed icon as rendered in the features region. -/
def bedImg : Node :=
  .elem "img" [("src", "https://media.example/ic_bed.svg")] []

/-- A fully populated listing card. -/
def fullCard : Node :=
  .elem "div" [("data-testid", "listing-card-7")]
    [ .elem "p" [("title", "Nice condo")] []
    , .elem "span" [("title", "PHP 1,000,000")] []
    , .elem "div" [("class", "x D_qc2")]
        [ bedImg
        , .elem "span" [("title", "2")] []
        , .elem "span" [("title", "45 sqm")] []
        , .elem "span" [("title", "furnished")] [] ] ]

/-- A card with no extractable content at all. -/
def emptyCard : Node :=
  .elem "div" [] []

/-- A card whose spans carry no "PHP" marker anywhere. -/
def noPhpCard : Node :=
  .elem "div" [("data-testid", "listing-card-8")]
    [ .elem "span" [("title", "USD 100")] [.text " 100 dollars "] ]

/-- A document holding one listing card. -/
def docOne : Node :=
  .elem "html" []
    [ .elem "head" [] [.elem "title" [] [.text " Results "]]
    , .elem "body" [] [fullCard] ]

/-- A document with no listing card. -/
def docNil : Node :=
  .elem "html" [] [.elem "body" [] [.text "nothing here"]]

/-- A sample record for the normalization theorems. -/
def sampleRecord : ListingRecord :=
  { title := "Shang Salcedo Place 1BR for sale", price := "PHP 1", bedrooms := "1"
    bathrooms := "1", size := "30 sqm", location := "", remarks := ""
    image_url := "", listing_url := "", seller_profile := "", seller_name := ""
    likes := "0", days_ago := "" }

/-! ## Claims -/

/-- Claim C10: every record returned by the field extractor carries a
`location` field that no extraction path ever assigns; its value is the
empty string for every container input. -/
theorem claim_C10 (listing : Node) : (extract_from_card listing).location = "" :=
  rfl

/-- Claim C7: a feature value whose text contains the unit "sqm" is
classified as size and never as bedrooms or bathrooms, regardless of
whether it is also numeric or has a preceding icon: the feature-loop step
assigns it to `size` and leaves `bedrooms`/`bathrooms` untouched. -/
theorem claim_C7 (st : FeatState) (v : String) (prevImg : Option Node)
    (h : strContains v "sqm" = true) :
    classifyFeature st v prevImg = { st with size := v } ∧
    (classifyFeature st v prevImg).bedrooms = st.bedrooms ∧
    (classifyFeature st v prevImg).bathrooms = st.bathrooms := by
  refine ⟨?_, ?_, ?_⟩ <;> simp [classifyFeature, h]

/-- Witness for C7 at a concrete sqm value that also has a preceding bed
icon. -/
theorem claim_C7_witness :
    classifyFeature {} "45 sqm" (some bedImg) = { size := "45 sqm" } ∧
    (classifyFeature {} "45 sqm" (some bedImg)).bedrooms = FeatState.bedrooms {} ∧
    (classifyFeature {} "45 sqm" (some bedImg)).bathrooms = FeatState.bathrooms {} :=
  claim_C7 {} "45 sqm" (some bedImg) (by decide)

/-- Counterexample to claim C1: `numericCard`'s features region holds the
purely numeric value "3" with no preceding icon, yet the extracted record's
`remarks` field is empty — the value lands in no field at all, so it is
not "classified as remarks". -/
theorem claim_C1_counterexample :
    featureItems numericCard = [("3", none)] ∧
    isDigits "3" = true ∧
    (extract_from_card numericCard).remarks = "" ∧
    strContains (extract_from_card numericCard).remarks "3" = false ∧
    (extract_from_card numericCard).bedrooms = "" ∧
    (extract_from_card numericCard).bathrooms = "" ∧
    (extract_from_card numericCard).size = "" :=
  ⟨rfl, by decide, rfl, by decide, rfl, rfl, rfl⟩

/-- Claim C1 as amended: a purely numeric feature value with no preceding
bed or bath icon is silently dropped — the feature-loop step leaves the
record state completely unchanged (it is neither remarks nor any other
field). -/
theorem claim_C1_amended (st : FeatState) (v : String) (prevImg : Option Node)
    (hd : isDigits v = true)
    (hicon : match prevImg with
             | none => True
             | some img =>
                 strContains (attrD img "src" "") "ic_bed.svg" = false ∧
                 strContains (attrD img "src" "") "ic_bath.svg" = false) :
    classifyFeature st v prevImg = st := by
  have hs := isDigits_not_contains_sqm v hd
  cases prevImg with
  | none => simp [classifyFeature, hs, hd]
  | some img => simp [classifyFeature, hs, hd, hicon.1, hicon.2]

/-- Witness for the amended C1 at the concrete value "3" with no icon. -/
theorem claim_C1_amended_witness :
    classifyFeature { remarks := "r" } "3" none = { remarks := "r" } :=
  claim_C1_amended { remarks := "r" } "3" none (by decide) trivial

/-- The character list of a pipe-containing string decomposes at its first
pipe. -/
theorem splitAt_pipe (cs : List Char) (h : '|' ∈ cs) :
    cs = cs.takeWhile (fun c => !(c == '|')) ++
      '|' :: cs.drop ((cs.takeWhile (fun c => !(c == '|'))).length + 1) := by
  induction cs with
  | nil => cases h
  | cons c rest ih =>
    by_cases hc : c = '|'
    · subst hc
      simp [List.takeWhile_cons]
    · have hr : '|' ∈ rest := by
        rcases List.mem_cons.mp h with h1 | h2
        · exact absurd h1.symm hc
        · exact h2
      have hpc : (!(c == '|')) = true := by simpa using hc
      simp only [List.takeWhile_cons, hpc, if_true, List.length_cons,
        List.drop_succ_cons, List.cons_append]
      exact congrArg (c :: ·) (ih hr)

/-- Claim C2: the normalization split uses only the first pipe: with a pipe
present, the first column is the pipe-free prefix and the second column the
entire remainder; with no pipe the whole response is the first column and
the second is empty; `"|lease"` yields `("", "lease")`. -/
theorem claim_C2 (s : String) :
    (strContains s "|" = true →
       s = (splitPipeOnce s).1 ++ "|" ++ (splitPipeOnce s).2 ∧
       strContains (splitPipeOnce s).1 "|" = false) ∧
    (strContains s "|" = false → splitPipeOnce s = (s, "")) ∧
    splitPipeOnce "|lease" = ("", "lease") := by
  refine ⟨fun h => ?_, fun h => by simp [splitPipeOnce, h], by decide⟩
  have hmem : '|' ∈ s.toList := mem_of_strContains s "|" '|' (by decide) h
  constructor
  · simp only [splitPipeOnce, h, if_true]
    have hstr := congrArg String.mk (splitAt_pipe s.toList hmem)
    have h2 : ((s.toList.takeWhile (fun c => !(c == '|')) ++ ['|']) ++
          s.toList.drop ((s.toList.takeWhile (fun c => !(c == '|'))).length + 1)) =
        (s.toList.takeWhile (fun c => !(c == '|')) ++
          '|' :: s.toList.drop ((s.toList.takeWhile (fun c => !(c == '|'))).length + 1)) := by
      rw [List.append_assoc, List.singleton_append]
    exact hstr.trans (congrArg String.mk h2).symm
  · simp only [splitPipeOnce, h, if_true]
    by_contra hne
    rw [Bool.not_eq_false] at hne
    have : '|' ∈ s.toList.takeWhile (fun c => !(c == '|')) :=
      mem_of_strContains _ "|" '|' (by decide) hne
    have := List.mem_takeWhile_imp this
    simp at this

/-- Witness for C2 at concrete responses with a pipe, with two pipes and
with none. -/
theorem claim_C2_witness :
    (("a|b|c" : String) = (splitPipeOnce "a|b|c").1 ++ "|" ++ (splitPipeOnce "a|b|c").2 ∧
       strContains (splitPipeOnce "a|b|c").1 "|" = false) ∧
    splitPipeOnce "nopipe" = ("nopipe", "") :=
  ⟨(claim_C2 "a|b|c").1 (by decide), (claim_C2 "nopipe").2.1 (by decide)⟩

/-- Claim C3: `extract_listings` fails with the no-listings error exactly
when the sequence of listing containers is empty (the `Except` value
propagates to the caller), and on a non-empty sequence it returns the page
title and one record per container in document order. -/
theorem claim_C3 (root : Node) :
    (extract_listings root = Except.error "No listings were found" ↔
       findAll isListingCard root = []) ∧
    (findAll isListingCard root ≠ [] →
       extract_listings root =
         Except.ok (pageTitleOf root, (findAll isListingCard root).map extract_from_card)) := by
  constructor
  · constructor
    · intro h
      by_contra hne
      simp [extract_listings, List.isEmpty_iff, hne] at h
    · intro h
      simp [extract_listings, h]
  · intro h
    simp [extract_listings, List.isEmpty_iff, h]

/-- Witness for C3: a one-card document collects one record, an empty
document raises. -/
theorem claim_C3_witness :
    extract_listings docOne =
      Except.ok (pageTitleOf docOne, (findAll isListingCard docOne).map extract_from_card) ∧
    extract_listings docNil = Except.error "No listings were found" :=
  ⟨(claim_C3 docOne).2
      (by rw [show findAll isListingCard docOne = [fullCard] from rfl]
          exact List.cons_ne_nil _ _),
   (claim_C3 docNil).1.mpr rfl⟩

/-- Claim C5: `batch_parse` returns exactly as many records as it is
given, and the i-th output is the i-th input enriched positionally with the
building / transaction type parsed from the backend response for that
record's title; no other field changes.  (`ThreadPoolExecutor.map` returns
results in input order for any worker count, so the backend is a pure
oracle mapped over the titles.) -/
theorem claim_C5 (backend : String → String) (df : List ListingRecord) :
    (batch_parse backend df).length = df.length ∧
    ∀ (i : Nat) (hi : i < df.length) (hi2 : i < (batch_parse backend df).length),
      ((batch_parse backend df).get ⟨i, hi2⟩).toListingRecord = df.get ⟨i, hi⟩ ∧
      ((batch_parse backend df).get ⟨i, hi2⟩).building =
        (splitPipeOnce (backend (df.get ⟨i, hi⟩).title)).1 ∧
      ((batch_parse backend df).get ⟨i, hi2⟩).trans_type =
        (splitPipeOnce (backend (df.get ⟨i, hi⟩).title)).2 := by
  refine ⟨by simp [batch_parse], ?_⟩
  intro i hi hi2
  simp [batch_parse, List.get_eq_getElem, List.getElem_map, List.getElem_zip]

/-- Witness for C5 on a one-record frame and a backend answering
`<title>|sale`. -/
theorem claim_C5_witness :
    (batch_parse (fun s => s ++ "|sale") [sampleRecord]).length = 1 ∧
    ((batch_parse (fun s => s ++ "|sale") [sampleRecord]).get
        ⟨0, by decide⟩).toListingRecord = sampleRecord ∧
    ((batch_parse (fun s => s ++ "|sale") [sampleRecord]).get
        ⟨0, by decide⟩).building = "Shang Salcedo Place 1BR for sale" ∧
    ((batch_parse (fun s => s ++ "|sale") [sampleRecord]).get
        ⟨0, by decide⟩).trans_type = "sale" := by
  have h := claim_C5 (fun s => s ++ "|sale") [sampleRecord]
  have h0 := h.2 0 (by decide) (by decide)
  exact ⟨h.1, h0.1, h0.2.1.trans (by decide), h0.2.2.trans (by decide)⟩

/-- Claim C4: the record shape is fixed — whichever per-field extraction
fails, the field is present with the empty-string value (never absent),
except `likes`, which defaults to "0". -/
theorem claim_C4 (l : Node) :
    (find titleAttrP l = none → (findAll isPTag l).find? nonBlankText = none →
       (extract_from_card l).title = "") ∧
    (find priceAttrSpan l = none → (findAll isSpanTag l).find? priceTextStarts = none →
       (extract_from_card l).price = "") ∧
    (find isFeaturesDiv l = none →
       (extract_from_card l).bedrooms = "" ∧ (extract_from_card l).bathrooms = "" ∧
       (extract_from_card l).size = "" ∧ (extract_from_card l).remarks = "") ∧
    (find imgWithAltSrc l = none → (extract_from_card l).image_url = "") ∧
    (find aWithHref l = none → (extract_from_card l).listing_url = "") ∧
    (find aSellerLink l = none → (extract_from_card l).seller_profile = "") ∧
    (find sellerNameP l = none → (extract_from_card l).seller_name = "") ∧
    (find likeBtn l = none → (extract_from_card l).likes = "0") ∧
    (∀ bt, find likeBtn l = some bt → find isSpanTag bt = none →
       (extract_from_card l).likes = "0") ∧
    (find daysAgoP l = none → (extract_from_card l).days_ago = "") ∧
    (extract_from_card l).location = "" := by
  refine ⟨fun h1 h2 => ?_, fun h1 h2 => ?_, fun h => ?_, fun h => ?_, fun h => ?_,
    fun h => ?_, fun h => ?_, fun h => ?_, fun bt h1 h2 => ?_, fun h => ?_, rfl⟩
  · simp [extract_from_card, extractTitle, h1, h2]
  · simp [extract_from_card, extractPrice, h1, h2]
  · refine ⟨?_, ?_, ?_, ?_⟩ <;> simp [extract_from_card, extractFeatures, featureItems, h]
  · simp [extract_from_card, extractImageUrl, h]
  · simp [extract_from_card, extractListingUrl, h]
  · simp [extract_from_card, extractSellerProfile, h]
  · simp [extract_from_card, extractSellerName, h]
  · simp [extract_from_card, extractLikes, h]
  · simp [extract_from_card, extractLikes, h1, h2]
  · simp [extract_from_card, extractDaysAgo, h]

/-- Witness for C4: a bare container extracts to the all-default record. -/
theorem claim_C4_witness :
    (extract_from_card emptyCard).title = "" ∧
    (extract_from_card emptyCard).price = "" ∧
    (extract_from_card emptyCard).bedrooms = "" ∧
    (extract_from_card emptyCard).bathrooms = "" ∧
    (extract_from_card emptyCard).size = "" ∧
    (extract_from_card emptyCard).remarks = "" ∧
    (extract_from_card emptyCard).image_url = "" ∧
    (extract_from_card emptyCard).listing_url = "" ∧
    (extract_from_card emptyCard).seller_profile = "" ∧
    (extract_from_card emptyCard).seller_name = "" ∧
    (extract_from_card emptyCard).likes = "0" ∧
    (extract_from_card emptyCard).days_ago = "" ∧
    (extract_from_card emptyCard).location = "" := by
  have h := claim_C4 emptyCard
  exact ⟨h.1 rfl rfl, h.2.1 rfl rfl, (h.2.2.1 rfl).1, (h.2.2.1 rfl).2.1,
    (h.2.2.1 rfl).2.2.1, (h.2.2.1 rfl).2.2.2, h.2.2.2.1 rfl, h.2.2.2.2.1 rfl,
    h.2.2.2.2.2.1 rfl, h.2.2.2.2.2.2.1 rfl, h.2.2.2.2.2.2.2.1 rfl,
    h.2.2.2.2.2.2.2.2.2.1 rfl, h.2.2.2.2.2.2.2.2.2.2⟩

/-- Claim C8: price extraction prefers a `<span>` `title` attribute
beginning with "PHP", otherwise takes the first `<span>` whose stripped
text begins with "PHP", and when no "PHP" marker appears in any span's
attribute or text the price is the empty string (no exception: extraction
is total). -/
theorem claim_C8 (l : Node) :
    (∀ t, find priceAttrSpan l = some t →
       (extract_from_card l).price = attrD t "title" "") ∧
    (find priceAttrSpan l = none →
       ∀ s, (findAll isSpanTag l).find? priceTextStarts = some s →
         (extract_from_card l).price = pyStrip (nodeText s)) ∧
    ((∀ s ∈ findAll isSpanTag l,
        strContains (attrD s "title" "") "PHP" = false ∧
        strContains (pyStrip (nodeText s)) "PHP" = false) →
       (extract_from_card l).price = "") := by
  refine ⟨fun t ht => ?_, fun h s hs => ?_, fun hno => ?_⟩
  · simp [extract_from_card, extractPrice, ht]
  · simp [extract_from_card, extractPrice, h, hs]
  · have h1 : findAll priceAttrSpan l = [] := by
      unfold findAll
      rw [List.filter_eq_nil_iff]
      intro a ha hp
      simp only [priceAttrSpan, Bool.and_eq_true] at hp
      have hmem : a ∈ findAll isSpanTag l := by
        unfold findAll
        exact List.mem_filter.mpr ⟨ha, by simpa [isSpanTag] using hp.1⟩
      have hcon := strContains_of_strStarts (attrD a "title" "") "PHP" hp.2
      rw [(hno a hmem).1] at hcon
      exact Bool.false_ne_true hcon
    have h2 : (findAll isSpanTag l).find? priceTextStarts = none := by
      rw [List.find?_eq_none]
      intro s hs hp
      simp only [priceTextStarts] at hp
      have hcon := strContains_of_strStarts (pyStrip (nodeText s)) "PHP" hp
      rw [(hno s hs).2] at hcon
      exact Bool.false_ne_true hcon
    have h3 : find priceAttrSpan l = none := by
      unfold find
      rw [h1]
      rfl
    simp [extract_from_card, extractPrice, h3, h2]

/-- Witness for C8: a card whose only span carries a non-PHP currency in
both attribute and text yields an empty price. -/
theorem claim_C8_witness : (extract_from_card noPhpCard).price = "" :=
  (claim_C8 noPhpCard).2.2 (by decide)

/-- No "Show more results" click event is a `quit` event. -/
theorem count_quit_clicks (n : Nat) :
    ((List.range n).map Ev.clickShowMore).count Ev.quit = 0 := by
  rw [List.count_eq_zero]
  simp

/-- Claim C6: the browser session is closed exactly once on every exit
path of `extract_html`: exactly one `quit` event appears in the trace,
both when the location filter fails (the `FilterUnavailable` error still
propagating) and when materialization succeeds with the page markup. -/
theorem claim_C6 (env : Env) (maxClicks : Option Nat)
    (hx : loopExits env.showMore maxClicks) :
    (extract_html env maxClicks hx).1.count Ev.quit = 1 ∧
    (env.filterOk = false →
       (extract_html env maxClicks hx).2 = Except.error ScrapeError.filterUnavailable) ∧
    (env.filterOk = true →
       (extract_html env maxClicks hx).2 = Except.ok env.pageSource) := by
  refine ⟨?_, fun hf => ?_, fun hf => ?_⟩
  · cases hf : env.filterOk <;>
      simp [extract_html, tryFinallyT, extract_html_body, hf,
        List.count_append, List.count_cons, count_quit_clicks]
  · simp [extract_html, tryFinallyT, extract_html_body, hf]
  · simp [extract_html, tryFinallyT, extract_html_body, hf]

/-- A session whose location filter never becomes clickable. -/
def envNoFilter : Env :=
  { filterOk := false, searchReady := false, showMore := fun _ => false, pageSource := "m" }

/-- The load loop of `envNoFilter` exits immediately. -/
theorem envNoFilterExits : loopExits envNoFilter.showMore (some 0) :=
  ⟨0, rfl⟩

/-- Witness for C6 on a concrete failing-filter session. -/
theorem claim_C6_witness :
    (extract_html envNoFilter (some 0) envNoFilterExits).1.count Ev.quit = 1 ∧
    (extract_html envNoFilter (some 0) envNoFilterExits).2 =
      Except.error ScrapeError.filterUnavailable := by
  have h := claim_C6 envNoFilter (some 0) envNoFilterExits
  exact ⟨h.1, h.2.1 rfl⟩

/-- Claim C9: with `max_loads` given the load loop always exits and
performs at most `max_loads` successful clicks; and when the "load more"
control is never clickable after the first screen, the loop performs zero
loads and `extract_html` returns the current markup without raising. -/
theorem claim_C9 (sm : Nat → Bool) (m : Nat) (env : Env) (maxClicks : Option Nat)
    (hx : loopExits env.showMore maxClicks)
    (hnever : ∀ k, env.showMore k = false) (hf : env.filterOk = true) :
    (∃ hm : loopExits sm (some m), clickCount sm (some m) hm ≤ m) ∧
    clickCount env.showMore maxClicks hx = 0 ∧
    (extract_html env maxClicks hx).2 = Except.ok env.pageSource ∧
    ∀ k, (extract_html env maxClicks hx).1.count (Ev.clickShowMore k) = 0 := by
  have hm : loopExits sm (some m) := ⟨m, by simp [loopStep, loopCond]⟩
  have h0 : clickCount env.showMore maxClicks hx = 0 := by
    rw [clickCount, Nat.find_eq_zero]
    simp [loopStep, hnever 0]
  refine ⟨⟨hm, Nat.find_min' hm (by simp [loopStep, loopCond])⟩, h0, ?_, fun k => ?_⟩
  · simp [extract_html, tryFinallyT, extract_html_body, hf]
  · simp [extract_html, tryFinallyT, extract_html_body, hf, h0,
      List.count_append, List.count_cons]

/-- A session that loads fine but whose "load more" control is never
clickable. -/
def envNever : Env :=
  { filterOk := true, searchReady := true, showMore := fun _ => false, pageSource := "markup" }

/-- The load loop of `envNever` exits immediately, even with no bound. -/
theorem envNeverExits : loopExits envNever.showMore none :=
  ⟨0, rfl⟩

/-- Witness for C9 on a concrete never-clickable session with no click
bound, and a four-click bound on an always-clickable control. -/
theorem claim_C9_witness :
    clickCount (fun _ => true) (some 4) ⟨4, by decide⟩ ≤ 4 ∧
    clickCount envNever.showMore none envNeverExits = 0 ∧
    (extract_html envNever none envNeverExits).2 = Except.ok envNever.pageSource ∧
    (extract_html envNever none envNeverExits).1.count (Ev.clickShowMore 0) = 0 := by
  have h := claim_C9 (fun _ => true) 4 envNever none envNeverExits (fun k => rfl) rfl
  obtain ⟨hm, hle⟩ := h.1
  exact ⟨hle, h.2.1, h.2.2.1, h.2.2.2 0⟩

end Carousell
